import Mathlib

/-!
Verification of the automic batch-orchestration scripts.

The repository holds three Python entry points:

* `execute_procedure.py` — the full-preflight variant: existence check,
  batch-service catalog check, idempotency check against the audit store,
  registration, remote invocation, finalization.
* `execute_clearing_procedure.py` — the clearing variant: registration first,
  then existence check, invocation, finalization, with a vendor-error
  classifier.
* `validate_batch_execution.py` — the standalone calendar readiness check.

Each Python function the claims touch is embedded below as an executable Lean
definition over explicit state: lists of rows stand for the database tables,
and an oracle value stands for the outcome of the remote routine invocation.
Database side effects are modelled by returning the updated table; a run also
returns the list of stage events it performed, so ordering properties can be
stated about one invocation.  The model assumes the two connections open
successfully (connection-level failures abort with `DATABASE_ERROR_CODE`
before any of the modelled logic runs and are not needed by the claims).
-/

namespace Automic

/-! ## Shared data model

`ExecutionRecord` embeds a row of the audit table (`dbo.HistoricoAutomicLog`
for the full variant, `dbo.HistoricoAutomicClearingLog` for the clearing
variant; the two tables have the same columns, with `DataExecucao` in place of
`DataMovimento`).  `statusExecucao`: 1 = Registered, 2 = Succeeded,
3 = Failed.  `DataMovimento` is a SQL datetime column; the INSERT writes
`'{run_date} 00:00:00'` and the SELECT compares against `'{run_date}'`, which
SQL Server converts to the same datetime value, so the column is modelled by
the date string alone. -/

structure ExecutionRecord where
  rid : Nat
  dataMovimento : String
  emissor : String
  ipServidor : String
  nomeProcedure : String
  dataHoraInicial : Nat
  dataHoraFinal : Option Nat
  mensagemErro : Option String
  statusExecucao : Nat
  deriving DecidableEq, Repr

/-- A row of `dbo.ProcessosProcedures` (batch-service catalog). -/
structure CatalogEntry where
  nomeProcedure : String
  ordem : Nat
  deriving DecidableEq, Repr

/-- A row of `dbo.ControleProcessos` for one reference date.
`tipoMovimento` is nullable and unconstrained in the table, hence
`Option Int`. -/
structure ControleProcessos where
  dataTerminoProcessos : Option Nat
  tipoMovimento : Option Int
  deriving DecidableEq, Repr

/-- A row of the `ControleProcessosProcedures ⟕ ProcessosProcedures` join used
by the complementary-batch wait. -/
structure SubProcRow where
  idProcesso : Nat
  nomeProcedure : Option String
  flagExecutado : Int
  deriving DecidableEq, Repr

/-- The stages a run performs, in the order it performs them. -/
inductive Event
  | checkExists
  | checkCatalog
  | removeCatalog
  | checkAlreadyExecuted
  | register (rid : Nat)
  | invoke
  | finalizeSuccess (rid : Nat)
  | finalizeError (rid : Nat)
  deriving DecidableEq, Repr

/-- The single-quote character (code 39), written by code point. -/
def singleQuote : Char := Char.ofNat 39

/-- `str.replace("'", "''")` on the underlying character list. -/
def escape_quotes_chars : List Char → List Char
  | [] => []
  | c :: cs =>
    if c = singleQuote then singleQuote :: singleQuote :: escape_quotes_chars cs
    else c :: escape_quotes_chars cs

/-- `str(error).replace("'", "''")`, the SQL escaping both variants apply to
the error message before storing it. -/
def escape_quotes (s : String) : String := ⟨escape_quotes_chars s.data⟩

/-- Python `str.strip()`: whitespace removal at both ends (for the ASCII
whitespace the CLI deals in), on the underlying character list. -/
def py_strip (s : String) : String :=
  ⟨((s.data.dropWhile Char.isWhitespace).reverse.dropWhile Char.isWhitespace).reverse⟩

namespace ExecuteProcedure

/-! ## `execute_procedure.py` -/

/-! Exit-code constants (lines 23–31). -/

def SUCCESS_CODE : Nat := 0
def PROC_CADASTRADA_SERVICO_BATCH_CODE : Nat := 100
def PROC_JA_EXECUTADA_DATAMOVIMENTO_CODE : Nat := 101
def PARAM_RUN_DATE_INVALID_CODE : Nat := 201
def PARAM_REQUIRED_EMPTY_CODE : Nat := 202
def DATABASE_ERROR_CODE : Nat := 203
def PROCEDURE_NOT_EXISTS_CODE : Nat := 204

/-- The parsed CLI arguments (`parse_arguments`, lines 54–93).  `run_date` is
`none` when the optional flag was not supplied. -/
structure ExecParams where
  issuer_server : String
  issuer_database : String
  issuer_user : String
  issuer_password : String
  logbatch_server : String
  logbatch_database : String
  logbatch_user : String
  logbatch_password : String
  issuer_procedure : String
  run_date : Option String
  remove_from_batch : Bool
  force_execution : Bool
  deriving DecidableEq, Repr

/-- `validate_params` (lines 96–133).  `strptime_ok rd` stands for whether
`datetime.strptime(rd, %Y-%m-%d)` succeeds (the stdlib parser is external to
this core).  Note the source checks seven flags; the two password flags are
not checked. -/
def validate_params (p : ExecParams) (strptime_ok : String → Bool) : Nat :=
  if py_strip p.issuer_server == "" then PARAM_REQUIRED_EMPTY_CODE
  else if py_strip p.issuer_database == "" then PARAM_REQUIRED_EMPTY_CODE
  else if py_strip p.issuer_user == "" then PARAM_REQUIRED_EMPTY_CODE
  else if py_strip p.logbatch_server == "" then PARAM_REQUIRED_EMPTY_CODE
  else if py_strip p.logbatch_database == "" then PARAM_REQUIRED_EMPTY_CODE
  else if py_strip p.logbatch_user == "" then PARAM_REQUIRED_EMPTY_CODE
  else if py_strip p.issuer_procedure == "" then PARAM_REQUIRED_EMPTY_CODE
  else
    match p.run_date with
    | some rd => if rd ≠ "" ∧ ¬ strptime_ok rd then PARAM_RUN_DATE_INVALID_CODE
                 else SUCCESS_CODE
    | none => SUCCESS_CODE

/-- `check_procedure_exists` (lines 146–158): the `sys.objects` query, with
the issuer's executable-routine names as the table. -/
def check_procedure_exists (procs : List String) (procedure : String) : Bool :=
  (procs.filter (fun q => q == procedure)).length > 0

/-- `check_procedure_in_batch_service` (lines 161–172). -/
def check_procedure_in_batch_service (catalog : List CatalogEntry)
    (procedure : String) : Bool :=
  (catalog.filter (fun e => e.nomeProcedure == procedure)).length > 0

/-- `remove_procedure_from_batch_service` (lines 175–208), embedding the
T-SQL batch: `@ProcedureOrdem` is the `Ordem` of a row matching the name
(`NULL`, never used, when none matches; the row when exactly one matches),
the DELETE removes every matching row, `@Affected` is its row count, and when
it is positive every surviving row with `Ordem >= @ProcedureOrdem` is
decremented.  Returns `@Affected` and the resulting catalog. -/
def remove_procedure_from_batch_service (catalog : List CatalogEntry)
    (procedure : String) : Nat × List CatalogEntry :=
  let deleted := catalog.filter (fun e => e.nomeProcedure == procedure)
  let remaining := catalog.filter (fun e => e.nomeProcedure != procedure)
  match deleted.head? with
  | none => (0, catalog)
  | some e =>
    (deleted.length,
     remaining.map (fun x =>
       if e.ordem ≤ x.ordem then { x with ordem := x.ordem - 1 } else x))

/-- The tuple filter of the `HistoricoAutomicLog` query (lines 213–220):
`Nome_Procedure`, `Ip_servidor`, `Emissor`, `DataMovimento` must all match. -/
def tupleMatches (r : ExecutionRecord)
    (procedure server database run_date : String) : Bool :=
  r.nomeProcedure == procedure && r.ipServidor == server &&
    r.emissor == database && r.dataMovimento == run_date

/-- The status filter appended to the query (lines 225–228):
`StatusExecucao = 2` under `force`, `StatusExecucao IN (1, 2)` otherwise. -/
def statusFilter (force : Bool) (r : ExecutionRecord) : Bool :=
  if force then r.statusExecucao == 2
  else r.statusExecucao == 1 || r.statusExecucao == 2

/-- `check_procedure_already_executed` (lines 211–236): whether any audit row
matches the tuple and passes the status filter. -/
def check_procedure_already_executed (store : List ExecutionRecord)
    (procedure server database run_date : String) (force : Bool) : Bool :=
  (store.filter (fun r =>
    tupleMatches r procedure server database run_date && statusFilter force r)).length > 0

/-- The row the INSERT of `register_new_proc_execution` (lines 239–248)
creates: `StatusExecucao = 1`, `DataHoraFinal` and `MensagemErro` null,
`DataHoraInicial = SYSDATETIME()` (the audit store's clock, `now`). -/
def registered_record (server database procedure run_date : String)
    (now rid : Nat) : ExecutionRecord :=
  { rid := rid, dataMovimento := run_date, emissor := database,
    ipServidor := server, nomeProcedure := procedure,
    dataHoraInicial := now, dataHoraFinal := none,
    mensagemErro := none, statusExecucao := 1 }

/-- `register_new_proc_execution` (lines 239–248): appends the new row and
returns `cursor.lastrowid` (`rid`, the identity the store assigns). -/
def register_new_proc_execution (store : List ExecutionRecord)
    (server database procedure run_date : String) (now rid : Nat) :
    List ExecutionRecord × Nat :=
  (store ++ [registered_record server database procedure run_date now rid], rid)

/-- `update_proc_execution_error` (lines 251–263): sets
`DataHoraFinal = SYSDATETIME()`, `MensagemErro` to the escaped error text and
`StatusExecucao = 3` on every row whose identity matches `rowid`; returns the
updated table and `cursor.rowcount`. -/
def update_proc_execution_error (store : List ExecutionRecord) (rowid : Nat)
    (error : String) (now : Nat) : List ExecutionRecord × Nat :=
  (store.map (fun r =>
    if r.rid == rowid then
      { r with dataHoraFinal := some now,
               mensagemErro := some (escape_quotes error),
               statusExecucao := 3 }
    else r),
   (store.filter (fun r => r.rid == rowid)).length)

/-- `update_proc_execution_success` (lines 266–276): sets
`DataHoraFinal = SYSDATETIME()` and `StatusExecucao = 2` on every row whose
identity matches `rowid`; `MensagemErro` is not touched. -/
def update_proc_execution_success (store : List ExecutionRecord) (rowid : Nat)
    (now : Nat) : List ExecutionRecord × Nat :=
  (store.map (fun r =>
    if r.rid == rowid then
      { r with dataHoraFinal := some now, statusExecucao := 2 }
    else r),
   (store.filter (fun r => r.rid == rowid)).length)

/-- `execute_procedure` (lines 279–291).  `data` is the committed issuer-store
state; the EXEC outcome oracle is `.ok newData` (the routine commits and the
state becomes `newData`) or `.error e` (a `pymssql.Error` is raised, the
transaction is rolled back — the committed state is unchanged — and the error
is returned). -/
def execute_procedure (data : Nat) (outcome : Except String Nat) :
    Nat × Option String :=
  match outcome with
  | .ok newData => (newData, none)
  | .error e => (data, some e)

/-- The issuer store: executable routine names (`sys.objects`), the
batch-service catalog, and an abstract committed data state the routines
mutate. -/
structure IssuerEnv where
  procedures : List String
  catalog : List CatalogEntry
  data : Nat
  deriving DecidableEq, Repr

/-- One invocation's environment: the issuer store, the audit table, the
identity the next INSERT will be assigned, the audit clock at registration
and at finalization, and the EXEC outcome oracle. -/
structure Env where
  issuer : IssuerEnv
  audit : List ExecutionRecord
  nextId : Nat
  startTime : Nat
  finishTime : Nat
  execOutcome : Except String Nat
  deriving Repr

/-- Result of `run_process`: exit code, final stores, and the stage trace. -/
structure RunResult where
  code : Nat
  issuer : IssuerEnv
  audit : List ExecutionRecord
  trace : List Event
  deriving Repr

/-- The tail of `run_process` from the already-executed check on
(lines 345–371): idempotency check, registration, invocation, finalization. -/
def run_from_already_check (p : ExecParams) (run_date : String)
    (issuer : IssuerEnv) (env : Env) (t : List Event) : RunResult :=
  let t1 := t ++ [Event.checkAlreadyExecuted]
  if check_procedure_already_executed env.audit p.issuer_procedure
      p.issuer_server p.issuer_database run_date p.force_execution then
    { code := PROC_JA_EXECUTADA_DATAMOVIMENTO_CODE, issuer := issuer,
      audit := env.audit, trace := t1 }
  else
    let reg := register_new_proc_execution env.audit p.issuer_server
      p.issuer_database p.issuer_procedure run_date env.startTime env.nextId
    let t2 := t1 ++ [Event.register reg.2]
    let ex := execute_procedure issuer.data env.execOutcome
    let t3 := t2 ++ [Event.invoke]
    match ex.2 with
    | some e =>
      { code := DATABASE_ERROR_CODE, issuer := { issuer with data := ex.1 },
        audit := (update_proc_execution_error reg.1 reg.2 e env.finishTime).1,
        trace := t3 ++ [Event.finalizeError reg.2] }
    | none =>
      { code := SUCCESS_CODE, issuer := { issuer with data := ex.1 },
        audit := (update_proc_execution_success reg.1 reg.2 env.finishTime).1,
        trace := t3 ++ [Event.finalizeSuccess reg.2] }

/-- `run_process` (lines 293–379), on an open pair of connections: existence
check (exit 204 when absent), catalog check (removal when requested, exit 100
when present without the removal flag), then the tail above. -/
def run_process (p : ExecParams) (run_date : String) (env : Env) : RunResult :=
  let t1 : List Event := [Event.checkExists]
  if ¬ check_procedure_exists env.issuer.procedures p.issuer_procedure then
    { code := PROCEDURE_NOT_EXISTS_CODE, issuer := env.issuer,
      audit := env.audit, trace := t1 }
  else
    let inCatalog := check_procedure_in_batch_service env.issuer.catalog
      p.issuer_procedure
    let t2 := t1 ++ [Event.checkCatalog]
    if inCatalog ∧ p.remove_from_batch then
      run_from_already_check p run_date
        { env.issuer with
            catalog := (remove_procedure_from_batch_service env.issuer.catalog
              p.issuer_procedure).2 }
        env (t2 ++ [Event.removeCatalog])
    else if inCatalog then
      { code := PROC_CADASTRADA_SERVICO_BATCH_CODE, issuer := env.issuer,
        audit := env.audit, trace := t2 }
    else
      run_from_already_check p run_date env.issuer env t2

/-- Exit code of `main` together with whether a database connection was
opened (`run_process` opens both connections before any check). -/
structure MainResult where
  code : Nat
  connectionOpened : Bool
  deriving DecidableEq, Repr

/-- `main` (lines 382–404): validate parameters, default the run date to
yesterday (`yesterday`) when absent or empty, then run.  Connections are
opened only inside `run_process`. -/
def main (p : ExecParams) (strptime_ok : String → Bool) (yesterday : String)
    (env : Env) : MainResult :=
  let c := validate_params p strptime_ok
  if c = 0 then
    let rd := match p.run_date with
      | none => yesterday
      | some s => if s = "" then yesterday else s
    { code := (run_process p rd env).code, connectionOpened := true }
  else
    { code := c, connectionOpened := false }

end ExecuteProcedure

namespace ExecuteClearingProcedure

/-! ## `execute_clearing_procedure.py` -/

/-! Exit-code constants (lines 19–25). -/

def SUCCESS_CODE : Nat := 0
def PARAMETER_ERROR_CODE : Nat := 100
def DATABASE_ERROR_CODE : Nat := 200
def PROCEDURE_ERROR_CODE : Nat := 201

/-- The parsed CLI arguments (lines 58–101); every flag is required and
validated non-empty by `ValidateEmptyStringAction` at parse time. -/
structure ClearingParams where
  issuer_server : String
  issuer_database : String
  issuer_user : String
  issuer_password : String
  logbatch_server : String
  logbatch_database : String
  logbatch_user : String
  logbatch_password : String
  issuer_procedure : String
  deriving DecidableEq, Repr

/-- Which `pymssql` exception hierarchy the raw failure belongs to
(lines 219–232): `pymssql._mssql.MSSQLDatabaseException`,
`pymssql._mssql.MSSQLDriverException`, or another `MSSQLException`
subclass. -/
inductive MSSQLExcKind
  | databaseException
  | driverException
  | otherException
  deriving DecidableEq, Repr

/-- The fields of a raw `pymssql._mssql.MSSQLException` the handler reads
(lines 199–208): vendor message number, severity, state, line, originating
procedure name when known, and `error.args[0]` — the message tuple, modelled
as the list of its string entries. -/
structure MSSQLException where
  kind : MSSQLExcKind
  number : Int
  severity : Int
  state : Int
  line : Int
  procname : Option String
  args0 : List String
  deriving DecidableEq, Repr

/-- The taxonomy the handler maps a raw failure into. -/
inductive ErrorTaxonomy
  | ProgrammingError
  | IntegrityError
  | OperationalError
  | InternalError
  | DatabaseError
  deriving DecidableEq, Repr

/-- The classified error returned to the caller: taxonomy value plus the
enriched message tuple. -/
structure ClassifiedError where
  cls : ErrorTaxonomy
  msgTuple : List String
  deriving DecidableEq, Repr

/-- The human-readable summary entry appended to the message tuple
(lines 211–217): message number, severity, state, procedure name when known,
line. -/
def summary_line (e : MSSQLException) : String :=
  match e.procname with
  | some p =>
    "SQL Server message " ++ toString e.number ++ ", severity " ++
      toString e.severity ++ ", state " ++ toString e.state ++
      ", procedure " ++ p ++ ", line " ++ toString e.line
  | none =>
    "SQL Server message " ++ toString e.number ++ ", severity " ++
      toString e.severity ++ ", state " ++ toString e.state ++
      ", line " ++ toString e.line

/-- The `except pymssql._mssql.MSSQLException` handler of `execute_procedure`
(lines 199–235): append the summary entry to the message tuple, then pick the
taxonomy value — for a database exception, vendor codes 102, 207, 208, 2812,
4104 give `ProgrammingError`, codes 515, 547, 2601, 2627 give
`IntegrityError`, anything else `OperationalError`; a driver exception gives
`InternalError`; any other kind gives `DatabaseError`. -/
def classify_mssql_exception (e : MSSQLException) : ClassifiedError :=
  let msgTuple := e.args0 ++ [summary_line e]
  let cls :=
    match e.kind with
    | .databaseException =>
      if e.number = 102 ∨ e.number = 207 ∨ e.number = 208 ∨
          e.number = 2812 ∨ e.number = 4104 then
        ErrorTaxonomy.ProgrammingError
      else if e.number = 515 ∨ e.number = 547 ∨ e.number = 2601 ∨
          e.number = 2627 then
        ErrorTaxonomy.IntegrityError
      else ErrorTaxonomy.OperationalError
    | .driverException => ErrorTaxonomy.InternalError
    | .otherException => ErrorTaxonomy.DatabaseError
  { cls := cls, msgTuple := msgTuple }

/-- The row the INSERT of `register_new_proc_execution` (lines 113–123)
creates: `DataExecucao = CAST(SYSDATETIME() AS DATE)` (`today`),
`StatusExecucao = 1`, `DataHoraFinal` and `MensagemErro` null. -/
def registered_record (server database procedure today : String)
    (now rid : Nat) : ExecutionRecord :=
  { rid := rid, dataMovimento := today, emissor := database,
    ipServidor := server, nomeProcedure := procedure,
    dataHoraInicial := now, dataHoraFinal := none,
    mensagemErro := none, statusExecucao := 1 }

/-- `register_new_proc_execution` (lines 113–123). -/
def register_new_proc_execution (store : List ExecutionRecord)
    (server database procedure today : String) (now rid : Nat) :
    List ExecutionRecord × Nat :=
  (store ++ [registered_record server database procedure today now rid], rid)

/-- `update_proc_execution_error` (lines 136–146). -/
def update_proc_execution_error (store : List ExecutionRecord) (rowid : Nat)
    (error : String) (now : Nat) : List ExecutionRecord × Nat :=
  (store.map (fun r =>
    if r.rid == rowid then
      { r with dataHoraFinal := some now,
               mensagemErro := some (escape_quotes error),
               statusExecucao := 3 }
    else r),
   (store.filter (fun r => r.rid == rowid)).length)

/-- `update_proc_execution_success` (lines 125–134). -/
def update_proc_execution_success (store : List ExecutionRecord) (rowid : Nat)
    (now : Nat) : List ExecutionRecord × Nat :=
  (store.map (fun r =>
    if r.rid == rowid then
      { r with dataHoraFinal := some now, statusExecucao := 2 }
    else r),
   (store.filter (fun r => r.rid == rowid)).length)

/-- `check_procedure_exists` (lines 148–164): `none` when the routine exists,
otherwise the not-found exception; a `pymssql.Error` raised during the check
(`commError`) is returned instead. -/
def check_procedure_exists (procs : List String) (commError : Option String)
    (procedure : String) : Option String :=
  match commError with
  | some e => some e
  | none =>
    if (procs.filter (fun q => q == procedure)).length > 0 then none
    else
      some ("Procedure " ++ String.singleton singleQuote ++ procedure ++
        String.singleton singleQuote ++
        " not found or user does not have permission to execute.")

/-- One clearing invocation's environment: issuer routine names, the audit
table, the next INSERT identity, the audit-store date and clocks, an optional
communication failure during the existence check, and the invocation outcome
(`none` = success, `some e` = the raised error, rendered to its message). -/
structure ClearingEnv where
  issuerProcs : List String
  audit : List ExecutionRecord
  nextId : Nat
  today : String
  startTime : Nat
  finishTime : Nat
  checkCommError : Option String
  execOutcome : Option String
  deriving DecidableEq, Repr

/-- Result of the clearing `run_process`. -/
structure ClearingRunResult where
  code : Nat
  audit : List ExecutionRecord
  trace : List Event
  deriving DecidableEq, Repr

/-- `run_process` (lines 237–308): register first, then the existence check
(finalizing with the error and exiting 201 when it fails), then the
invocation (same failure handling), then the success finalization. -/
def run_process (p : ClearingParams) (env : ClearingEnv) : ClearingRunResult :=
  let reg := register_new_proc_execution env.audit p.issuer_server
    p.issuer_database p.issuer_procedure env.today env.startTime env.nextId
  let t1 : List Event := [Event.register reg.2]
  let t2 := t1 ++ [Event.checkExists]
  match check_procedure_exists env.issuerProcs env.checkCommError
      p.issuer_procedure with
  | some e =>
    { code := PROCEDURE_ERROR_CODE,
      audit := (update_proc_execution_error reg.1 reg.2 e env.finishTime).1,
      trace := t2 ++ [Event.finalizeError reg.2] }
  | none =>
    let t3 := t2 ++ [Event.invoke]
    match env.execOutcome with
    | some e =>
      { code := PROCEDURE_ERROR_CODE,
        audit := (update_proc_execution_error reg.1 reg.2 e env.finishTime).1,
        trace := t3 ++ [Event.finalizeError reg.2] }
    | none =>
      { code := SUCCESS_CODE,
        audit := (update_proc_execution_success reg.1 reg.2 env.finishTime).1,
        trace := t3 ++ [Event.finalizeSuccess reg.2] }

end ExecuteClearingProcedure

namespace ValidateBatchExecution

/-! ## `validate_batch_execution.py` -/

/-! Exit-code constants (lines 22–32). -/

def SUCCESS_CODE : Nat := 0
def BATCH_NAO_EXECUTADO_CODE : Nat := 100
def BATCH_FIM_DE_SEMANA_CODE : Nat := 101
def BATCH_FERIADO_CODE : Nat := 102
def BATCH_DATAMOVIMENTO_INEXISTENTE_CODE : Nat := 103
def BATCH_TIPOMOVIMENTO_INDETERMINADO_CODE : Nat := 104
def PARAM_RUN_DATE_INVALID_CODE : Nat := 201
def PARAM_REQUIRED_EMPTY_CODE : Nat := 202
def DATABASE_ERROR_CODE : Nat := 203

/-- The parsed CLI arguments (lines 55–79). -/
structure VBParams where
  issuer_server : String
  issuer_database : String
  issuer_user : String
  issuer_password : String
  run_date : Option String
  wait_batch_complemento : Bool
  deriving DecidableEq, Repr

/-- `validate_params` (lines 82–104): three blank checks (server, database,
user — the password flag is not checked) and the date-format check. -/
def validate_params (p : VBParams) (strptime_ok : String → Bool) : Nat :=
  if py_strip p.issuer_server == "" then PARAM_REQUIRED_EMPTY_CODE
  else if py_strip p.issuer_database == "" then PARAM_REQUIRED_EMPTY_CODE
  else if py_strip p.issuer_user == "" then PARAM_REQUIRED_EMPTY_CODE
  else
    match p.run_date with
    | some rd => if rd ≠ "" ∧ ¬ strptime_ok rd then PARAM_RUN_DATE_INVALID_CODE
                 else SUCCESS_CODE
    | none => SUCCESS_CODE

/-- The sub-process query (lines 174–179): rows for the reference date with
`FlagExecutado IN (0, 1)`. -/
def unfinishedSubProcs (subTable : List SubProcRow) : List SubProcRow :=
  subTable.filter (fun r => r.flagExecutado == 0 || r.flagExecutado == 1)

/-- `run_process` (lines 117–197), database effects replaced by the fetched
rows: `row` is the `ControleProcessos` row for the reference date (`none`
when the SELECT returns nothing) and `subTable` the sub-process rows for the
date, before the `FlagExecutado` filter. -/
def run_process (row : Option ControleProcessos)
    (subTable : List SubProcRow) (waitBatchComplemento : Bool) : Nat :=
  match row with
  | none => BATCH_DATAMOVIMENTO_INEXISTENTE_CODE
  | some r =>
    match r.tipoMovimento with
    | none => BATCH_TIPOMOVIMENTO_INDETERMINADO_CODE
    | some t =>
      if ¬ (t = 0 ∨ t = 1 ∨ t = 2) then BATCH_TIPOMOVIMENTO_INDETERMINADO_CODE
      else if t = 0 then BATCH_FIM_DE_SEMANA_CODE
      else if t = 2 then BATCH_FERIADO_CODE
      else if t = 1 ∧ r.dataTerminoProcessos = none then BATCH_NAO_EXECUTADO_CODE
      else if waitBatchComplemento ∧ (unfinishedSubProcs subTable).length > 0 then
        BATCH_NAO_EXECUTADO_CODE
      else SUCCESS_CODE

/-- Exit code of `main` together with whether a connection was opened. -/
structure VBMainResult where
  code : Nat
  connectionOpened : Bool
  deriving DecidableEq, Repr

/-- `main` (lines 200–222): validate, default the run date, then run; the
connection is opened only inside `run_process`. -/
def main (p : VBParams) (strptime_ok : String → Bool)
    (row : Option ControleProcessos) (subTable : List SubProcRow) :
    VBMainResult :=
  let c := validate_params p strptime_ok
  if c = 0 then
    { code := run_process row subTable p.wait_batch_complemento,
      connectionOpened := true }
  else
    { code := c, connectionOpened := false }

end ValidateBatchExecution

/-! ## Spec-side definitions for the exit-code bands (claim C7)

The category of each terminal outcome is taken from the spec's grouping:
success; precondition/business-rule failures; parameter or connectivity
failures.  The numeric values are the source constants above. -/

inductive OutcomeCategory
  | success
  | precondition
  | paramOrConnectivity
  deriving DecidableEq, Repr

/-- The band the spec assigns to each category: 0, 100–199, 200–299. -/
def inSpecBand : OutcomeCategory × Nat → Prop
  | (.success, n) => n = 0
  | (.precondition, n) => 100 ≤ n ∧ n ≤ 199
  | (.paramOrConnectivity, n) => 200 ≤ n ∧ n ≤ 299

instance : DecidablePred inSpecBand := by
  intro x
  rcases x with ⟨c, n⟩
  cases c <;> simp only [inSpecBand] <;> infer_instance

/-- The terminal outcomes of `execute_procedure.py` with their spec
categories: already-scheduled and already-executed are business-rule stops;
empty value, bad date, communication failure and routine-not-found are
parameter/connectivity stops. -/
def executeProcedureExitCodes : List (OutcomeCategory × Nat) :=
  [(.success, ExecuteProcedure.SUCCESS_CODE),
   (.precondition, ExecuteProcedure.PROC_CADASTRADA_SERVICO_BATCH_CODE),
   (.precondition, ExecuteProcedure.PROC_JA_EXECUTADA_DATAMOVIMENTO_CODE),
   (.paramOrConnectivity, ExecuteProcedure.PARAM_RUN_DATE_INVALID_CODE),
   (.paramOrConnectivity, ExecuteProcedure.PARAM_REQUIRED_EMPTY_CODE),
   (.paramOrConnectivity, ExecuteProcedure.DATABASE_ERROR_CODE),
   (.paramOrConnectivity, ExecuteProcedure.PROCEDURE_NOT_EXISTS_CODE)]

/-- The terminal outcomes of `validate_batch_execution.py` with their spec
categories: weekend, holiday, not-yet-finished, missing row and indeterminate
movement type are business-rule stops. -/
def validateBatchExitCodes : List (OutcomeCategory × Nat) :=
  [(.success, ValidateBatchExecution.SUCCESS_CODE),
   (.precondition, ValidateBatchExecution.BATCH_NAO_EXECUTADO_CODE),
   (.precondition, ValidateBatchExecution.BATCH_FIM_DE_SEMANA_CODE),
   (.precondition, ValidateBatchExecution.BATCH_FERIADO_CODE),
   (.precondition, ValidateBatchExecution.BATCH_DATAMOVIMENTO_INEXISTENTE_CODE),
   (.precondition, ValidateBatchExecution.BATCH_TIPOMOVIMENTO_INDETERMINADO_CODE),
   (.paramOrConnectivity, ValidateBatchExecution.PARAM_RUN_DATE_INVALID_CODE),
   (.paramOrConnectivity, ValidateBatchExecution.PARAM_REQUIRED_EMPTY_CODE),
   (.paramOrConnectivity, ValidateBatchExecution.DATABASE_ERROR_CODE)]

/-- The terminal outcomes of `execute_clearing_procedure.py` with their spec
categories: `PARAMETER_ERROR_CODE` is the code `CustomArgumentParser.error`
exits with on a malformed or empty flag, a parameter failure; the database
and procedure (not-found or execution-failure) codes are
parameter/connectivity stops. -/
def clearingExitCodes : List (OutcomeCategory × Nat) :=
  [(.success, ExecuteClearingProcedure.SUCCESS_CODE),
   (.paramOrConnectivity, ExecuteClearingProcedure.PARAMETER_ERROR_CODE),
   (.paramOrConnectivity, ExecuteClearingProcedure.DATABASE_ERROR_CODE),
   (.paramOrConnectivity, ExecuteClearingProcedure.PROCEDURE_ERROR_CODE)]

/-! ## Stage-ordering machinery (claim C9) -/

/-- Preflight validation events. -/
def isPreflightEvent : Event → Bool
  | .checkExists | .checkCatalog | .removeCatalog | .checkAlreadyExecuted => true
  | _ => false

/-- Registration events. -/
def isRegisterEvent : Event → Bool
  | .register _ => true
  | _ => false

/-- Invocation events. -/
def isInvokeEvent : Event → Bool
  | .invoke => true
  | _ => false

/-- Finalization events. -/
def isFinalizeEvent : Event → Bool
  | .finalizeSuccess _ | .finalizeError _ => true
  | _ => false

/-- Existence-check events. -/
def isCheckExistsEvent : Event → Bool
  | .checkExists => true
  | _ => false

/-- Every `p`-event of the trace occurs strictly before every `q`-event. -/
def eventsOrdered (t : List Event) (p q : Event → Bool) : Prop :=
  ∀ i (hi : i < t.length) j (hj : j < t.length),
    p (t.get ⟨i, hi⟩) = true → q (t.get ⟨j, hj⟩) = true → i < j

/-- Stage number of an event in the full-preflight variant: preflight 0,
registration 1, invocation 2, finalization 3. -/
def epStage : Event → Nat
  | .checkExists => 0
  | .checkCatalog => 0
  | .removeCatalog => 0
  | .checkAlreadyExecuted => 0
  | .register _ => 1
  | .invoke => 2
  | .finalizeSuccess _ => 3
  | .finalizeError _ => 3

/-- Stage number of an event in the clearing variant: registration 0, the
existence check 1, invocation 2, finalization 3 (catalog events do not occur
there). -/
def clStage : Event → Nat
  | .register _ => 0
  | .checkExists => 1
  | .checkCatalog => 1
  | .removeCatalog => 1
  | .checkAlreadyExecuted => 1
  | .invoke => 2
  | .finalizeSuccess _ => 3
  | .finalizeError _ => 3

/-! ## Theorems -/

open ExecuteProcedure in
/-- The blocking check returns `true` exactly when some stored row matches the
tuple and passes the status filter. -/
lemma check_exists_iff (store : List ExecutionRecord)
    (procedure server database run_date : String) (force : Bool) :
    check_procedure_already_executed store procedure server database run_date force = true ↔
      ∃ r ∈ store, tupleMatches r procedure server database run_date = true ∧
        statusFilter force r = true := by
  simp only [check_procedure_already_executed, decide_eq_true_eq, gt_iff_lt,
    List.length_pos_iff_exists_mem]
  constructor
  · rintro ⟨r, hr⟩
    rw [List.mem_filter] at hr
    refine ⟨r, hr.1, ?_⟩
    simpa [Bool.and_eq_true] using hr.2
  · rintro ⟨r, hr, h1, h2⟩
    exact ⟨r, List.mem_filter.mpr ⟨hr, by simp [h1, h2]⟩⟩

open ExecuteProcedure in
/-- **C1.** The already-executed check blocks exactly when a matching audit row
has status in {Registered = 1, Succeeded = 2} without `force`, and exactly when
a matching row has status Succeeded = 2 with `force`; consequently a Failed = 3
row never blocks and a Registered = 1 row blocks only non-forced runs. -/
theorem already_executed_check_characterization
    (store : List ExecutionRecord) (procedure server database run_date : String) :
    (check_procedure_already_executed store procedure server database run_date false = true ↔
      ∃ r ∈ store, tupleMatches r procedure server database run_date = true ∧
        (r.statusExecucao = 1 ∨ r.statusExecucao = 2)) ∧
    (check_procedure_already_executed store procedure server database run_date true = true ↔
      ∃ r ∈ store, tupleMatches r procedure server database run_date = true ∧
        r.statusExecucao = 2) ∧
    ((∀ r ∈ store, tupleMatches r procedure server database run_date = true →
        r.statusExecucao = 3) →
      ∀ force, check_procedure_already_executed store procedure server database run_date force
        = false) := by
  refine ⟨?_, ?_, ?_⟩
  · rw [check_exists_iff]
    constructor
    · rintro ⟨r, hr, hm, hs⟩
      refine ⟨r, hr, hm, ?_⟩
      simpa [statusFilter] using hs
    · rintro ⟨r, hr, hm, hs⟩
      refine ⟨r, hr, hm, ?_⟩
      simpa [statusFilter] using hs
  · rw [check_exists_iff]
    constructor
    · rintro ⟨r, hr, hm, hs⟩
      refine ⟨r, hr, hm, ?_⟩
      simpa [statusFilter] using hs
    · rintro ⟨r, hr, hm, hs⟩
      refine ⟨r, hr, hm, ?_⟩
      simpa [statusFilter] using hs
  · intro hall force
    rw [← Bool.not_eq_true, check_exists_iff]
    rintro ⟨r, hr, hm, hs⟩
    have h3 := hall r hr hm
    cases force <;> simp [statusFilter, h3] at hs

open ExecuteProcedure in
/-- Concrete instantiations of `already_executed_check_characterization`: a
Succeeded row blocks a non-forced run and a forced run; a Registered row
blocks only the non-forced run; a Failed row blocks neither. -/
theorem already_executed_check_characterization_witness :
    check_procedure_already_executed
      [{ rid := 1, dataMovimento := "2024-03-01", emissor := "D", ipServidor := "S",
         nomeProcedure := "P", dataHoraInicial := 0, dataHoraFinal := some 5,
         mensagemErro := none, statusExecucao := 2 }] "P" "S" "D" "2024-03-01" false = true ∧
    check_procedure_already_executed
      [{ rid := 2, dataMovimento := "2024-03-01", emissor := "D", ipServidor := "S",
         nomeProcedure := "P", dataHoraInicial := 0, dataHoraFinal := none,
         mensagemErro := none, statusExecucao := 1 }] "P" "S" "D" "2024-03-01" true = false ∧
    check_procedure_already_executed
      [{ rid := 3, dataMovimento := "2024-03-01", emissor := "D", ipServidor := "S",
         nomeProcedure := "P", dataHoraInicial := 0, dataHoraFinal := some 5,
         mensagemErro := some "boom", statusExecucao := 3 }] "P" "S" "D" "2024-03-01" false
      = false := by
  refine ⟨?_, ?_, ?_⟩
  · exact (already_executed_check_characterization _ "P" "S" "D" "2024-03-01").1.mpr
      ⟨_, List.mem_singleton_self _, by decide, by decide⟩
  · have h := (already_executed_check_characterization
      [{ rid := 2, dataMovimento := "2024-03-01", emissor := "D", ipServidor := "S",
         nomeProcedure := "P", dataHoraInicial := 0, dataHoraFinal := none,
         mensagemErro := none, statusExecucao := 1 }] "P" "S" "D" "2024-03-01").2.1
    rw [← Bool.not_eq_true, h]
    rintro ⟨r, hr, -, hs⟩
    simp only [List.mem_singleton] at hr
    subst hr
    simp at hs
  · exact (already_executed_check_characterization _ "P" "S" "D" "2024-03-01").2.2
      (by rintro r hr -; simp only [List.mem_singleton] at hr; subst hr; rfl) false

open ValidateBatchExecution in
/-- **C4.** The calendar readiness check returns the weekend code for
`movementType = 0`, the holiday code for `2`, the not-yet-finished code for `1`
with null completion, success for `1` with completion set and no blocking
sub-process wait, the indeterminate code for a null or out-of-range movement
type, and the distinct missing-row code when no control row exists; the
missing-row and indeterminate outcomes take priority over the per-type
classification. -/
theorem calendar_classification (row : Option ControleProcessos)
    (subTable : List SubProcRow) (wait : Bool) :
    (row = none →
      run_process row subTable wait = BATCH_DATAMOVIMENTO_INEXISTENTE_CODE) ∧
    (∀ r, row = some r →
      (r.tipoMovimento = none ∨ ∃ t, r.tipoMovimento = some t ∧ ¬ (t = 0 ∨ t = 1 ∨ t = 2)) →
      run_process row subTable wait = BATCH_TIPOMOVIMENTO_INDETERMINADO_CODE) ∧
    (∀ r, row = some r → r.tipoMovimento = some 0 →
      run_process row subTable wait = BATCH_FIM_DE_SEMANA_CODE) ∧
    (∀ r, row = some r → r.tipoMovimento = some 2 →
      run_process row subTable wait = BATCH_FERIADO_CODE) ∧
    (∀ r, row = some r → r.tipoMovimento = some 1 → r.dataTerminoProcessos = none →
      run_process row subTable wait = BATCH_NAO_EXECUTADO_CODE) ∧
    (∀ r, row = some r → r.tipoMovimento = some 1 → r.dataTerminoProcessos ≠ none →
      (wait = false ∨ unfinishedSubProcs subTable = []) →
      run_process row subTable wait = ValidateBatchExecution.SUCCESS_CODE) := by
  refine ⟨?_, ?_, ?_, ?_, ?_, ?_⟩
  · rintro rfl
    rfl
  · rintro r rfl hind
    rcases hind with h | ⟨t, ht, hout⟩
    · simp [ValidateBatchExecution.run_process, h]
    · simp only [ValidateBatchExecution.run_process, ht]
      rw [if_pos hout]
  · rintro r rfl h0
    simp [ValidateBatchExecution.run_process, h0]
  · rintro r rfl h2
    simp [ValidateBatchExecution.run_process, h2, BATCH_FERIADO_CODE]
  · rintro r rfl h1 hterm
    simp [ValidateBatchExecution.run_process, h1, hterm, BATCH_NAO_EXECUTADO_CODE]
  · rintro r rfl h1 hterm hwait
    rcases hwait with rfl | hsub
    · simp [ValidateBatchExecution.run_process, h1, hterm,
        ValidateBatchExecution.SUCCESS_CODE]
    · simp [ValidateBatchExecution.run_process, h1, hterm, hsub,
        ValidateBatchExecution.SUCCESS_CODE]

open ValidateBatchExecution in
/-- Concrete instantiations of `calendar_classification`: a missing control row
yields 103; a null movement type yields 104; type 0 yields 101; type 2 yields
102; type 1 with null completion yields 100; type 1 with completion set and no
pending sub-process yields 0. -/
theorem calendar_classification_witness :
    run_process none [] false = BATCH_DATAMOVIMENTO_INEXISTENTE_CODE ∧
    run_process (some ⟨some 7, none⟩) [] false
      = BATCH_TIPOMOVIMENTO_INDETERMINADO_CODE ∧
    run_process (some ⟨none, some 0⟩) [] false = BATCH_FIM_DE_SEMANA_CODE ∧
    run_process (some ⟨none, some 2⟩) [] false = BATCH_FERIADO_CODE ∧
    run_process (some ⟨none, some 1⟩) [] false = BATCH_NAO_EXECUTADO_CODE ∧
    run_process (some ⟨some 7, some 1⟩) [⟨4, some "P", 2⟩] true
      = ValidateBatchExecution.SUCCESS_CODE :=
  ⟨(calendar_classification none [] false).1 rfl,
   (calendar_classification _ [] false).2.1 _ rfl (Or.inl rfl),
   (calendar_classification _ [] false).2.2.1 _ rfl rfl,
   (calendar_classification _ [] false).2.2.2.1 _ rfl rfl,
   (calendar_classification _ [] false).2.2.2.2.1 _ rfl rfl rfl,
   (calendar_classification _ _ true).2.2.2.2.2 _ rfl rfl (by simp)
     (Or.inr (by simp [ValidateBatchExecution.unfinishedSubProcs]))⟩

open ExecuteClearingProcedure in
/-- **C5.** The classifier maps a vendor code in the
object/column/procedure-not-found-or-malformed-call family (102, 207, 208,
2812, 4104) to `ProgrammingError`, a code in the constraint/uniqueness family
(515, 547, 2601, 2627) to `IntegrityError`, any other database exception to
`OperationalError`, a driver-internal failure to `InternalError`, and anything
else to the generic `DatabaseError`; in every case the original message tuple
is preserved verbatim and the human-readable summary entry is appended. -/
theorem error_classifier_taxonomy (e : MSSQLException) :
    (e.kind = .databaseException →
      ((e.number = 102 ∨ e.number = 207 ∨ e.number = 208 ∨
          e.number = 2812 ∨ e.number = 4104) →
        (classify_mssql_exception e).cls = .ProgrammingError) ∧
      ((e.number = 515 ∨ e.number = 547 ∨ e.number = 2601 ∨ e.number = 2627) →
        (classify_mssql_exception e).cls = .IntegrityError) ∧
      (¬ (e.number = 102 ∨ e.number = 207 ∨ e.number = 208 ∨
            e.number = 2812 ∨ e.number = 4104) →
       ¬ (e.number = 515 ∨ e.number = 547 ∨ e.number = 2601 ∨ e.number = 2627) →
        (classify_mssql_exception e).cls = .OperationalError)) ∧
    (e.kind = .driverException →
      (classify_mssql_exception e).cls = .InternalError) ∧
    (e.kind = .otherException →
      (classify_mssql_exception e).cls = .DatabaseError) ∧
    (classify_mssql_exception e).msgTuple = e.args0 ++ [summary_line e] := by
  refine ⟨?_, ?_, ?_, rfl⟩
  · intro hk
    refine ⟨?_, ?_, ?_⟩
    · intro hprog
      simp [classify_mssql_exception, hk, hprog]
    · intro hint
      have hnp : ¬ (e.number = 102 ∨ e.number = 207 ∨ e.number = 208 ∨
          e.number = 2812 ∨ e.number = 4104) := by
        rcases hint with h | h | h | h <;> rw [h] <;> decide
      simp [classify_mssql_exception, hk, hnp, hint]
    · intro hnp hni
      simp [classify_mssql_exception, hk, hnp, hni]
  · intro hk
    simp [classify_mssql_exception, hk]
  · intro hk
    simp [classify_mssql_exception, hk]

open ExecuteClearingProcedure in
/-- Concrete instantiations of `error_classifier_taxonomy`: code 2812 (missing
procedure) gives `ProgrammingError`, code 2627 (unique violation) gives
`IntegrityError`, code 50000 gives `OperationalError`, a driver exception
gives `InternalError`, another exception kind gives `DatabaseError`, and the
original message is kept verbatim with the summary appended. -/
theorem error_classifier_taxonomy_witness :
    (classify_mssql_exception
      ⟨.databaseException, 2812, 16, 62, 1, none, ["Could not find stored procedure"]⟩).cls
      = .ProgrammingError ∧
    (classify_mssql_exception
      ⟨.databaseException, 2627, 14, 1, 3, some "SYNC", ["Violation of UNIQUE KEY"]⟩).cls
      = .IntegrityError ∧
    (classify_mssql_exception
      ⟨.databaseException, 50000, 16, 1, 7, some "SYNC", ["custom failure"]⟩).cls
      = .OperationalError ∧
    (classify_mssql_exception
      ⟨.driverException, 0, 0, 0, 0, none, ["driver lost"]⟩).cls = .InternalError ∧
    (classify_mssql_exception
      ⟨.otherException, 0, 0, 0, 0, none, ["other"]⟩).cls = .DatabaseError ∧
    (classify_mssql_exception
      ⟨.databaseException, 2812, 16, 62, 1, none, ["Could not find stored procedure"]⟩).msgTuple
      = ["Could not find stored procedure",
         "SQL Server message 2812, severity 16, state 62, line 1"] := by
  refine ⟨?_, ?_, ?_, ?_, ?_, ?_⟩
  · exact ((error_classifier_taxonomy _).1 rfl).1 (by decide)
  · exact ((error_classifier_taxonomy _).1 rfl).2.1 (by decide)
  · exact ((error_classifier_taxonomy _).1 rfl).2.2 (by decide) (by decide)
  · exact (error_classifier_taxonomy _).2.1 rfl
  · exact (error_classifier_taxonomy _).2.2.1 rfl
  · exact (error_classifier_taxonomy _).2.2.2

open ExecuteProcedure in
/-- **C3.** On a catalog dense and contiguous in `executionOrder` (the orders
are exactly the interval `[base, base + n)`, without repetition) holding
exactly one entry with the given routine name, at order `k = e0.ordem`, the
removal deletes that entry, returns 1, leaves every entry with order `< k`
unchanged, decrements the order of every surviving entry with order `≥ k` by
exactly 1, and the resulting catalog is again dense with no gaps (its orders
are exactly `[base, base + n - 1)`); when no entry matches it returns 0 and
leaves the catalog unchanged. -/
theorem catalog_removal_compaction :
    (∀ (catalog : List CatalogEntry) (procedure : String),
      catalog.filter (fun e => e.nomeProcedure == procedure) = [] →
      remove_procedure_from_batch_service catalog procedure = (0, catalog)) ∧
    (∀ (catalog : List CatalogEntry) (procedure : String) (e0 : CatalogEntry)
        (base n : Nat),
      catalog.filter (fun e => e.nomeProcedure == procedure) = [e0] →
      (catalog.map CatalogEntry.ordem).Nodup →
      (∀ o, (∃ x ∈ catalog, x.ordem = o) ↔ base ≤ o ∧ o < base + n) →
      (remove_procedure_from_batch_service catalog procedure).1 = 1 ∧
      (remove_procedure_from_batch_service catalog procedure).2.length
        = catalog.length - 1 ∧
      (∀ x ∈ catalog, x.nomeProcedure ≠ procedure →
        (x.ordem < e0.ordem →
          x ∈ (remove_procedure_from_batch_service catalog procedure).2) ∧
        (e0.ordem ≤ x.ordem →
          { x with ordem := x.ordem - 1 }
            ∈ (remove_procedure_from_batch_service catalog procedure).2)) ∧
      (∀ x ∈ (remove_procedure_from_batch_service catalog procedure).2,
        x.nomeProcedure ≠ procedure) ∧
      (∀ o, (∃ x ∈ (remove_procedure_from_batch_service catalog procedure).2,
          x.ordem = o) ↔ base ≤ o ∧ o < base + n - 1)) := by
  constructor
  · intro catalog procedure hfilter
    simp [remove_procedure_from_batch_service, hfilter]
  · intro catalog procedure e0 base n hfilter hnodup hdense
    have he0filter : e0 ∈ catalog.filter (fun e => e.nomeProcedure == procedure) := by
      rw [hfilter]
      exact List.mem_singleton_self e0
    have he0mem : e0 ∈ catalog := (List.mem_filter.mp he0filter).1
    have he0name : (e0.nomeProcedure == procedure) = true :=
      (List.mem_filter.mp he0filter).2
    have hkrange : base ≤ e0.ordem ∧ e0.ordem < base + n :=
      (hdense e0.ordem).mp ⟨e0, he0mem, rfl⟩
    have hmatch_iff : ∀ x ∈ catalog, ((x.nomeProcedure == procedure) = true ↔ x = e0) := by
      intro x hx
      constructor
      · intro hn
        have : x ∈ catalog.filter (fun e => e.nomeProcedure == procedure) :=
          List.mem_filter.mpr ⟨hx, hn⟩
        rw [hfilter] at this
        exact List.mem_singleton.mp this
      · rintro rfl
        exact he0name
    have hordname : ∀ x ∈ catalog, x.nomeProcedure ≠ procedure ↔ x.ordem ≠ e0.ordem := by
      intro x hx
      constructor
      · intro hn he
        have hxe : x = e0 := List.inj_on_of_nodup_map hnodup hx he0mem he
        rw [hxe] at hn
        exact hn (by simpa using he0name)
      · intro he hn
        have : x = e0 := (hmatch_iff x hx).mp (by simpa using hn)
        rw [this] at he
        exact he rfl
    have hR : remove_procedure_from_batch_service catalog procedure
        = (1, (catalog.filter (fun e => e.nomeProcedure != procedure)).map
            (fun x => if e0.ordem ≤ x.ordem then { x with ordem := x.ordem - 1 } else x)) := by
      simp [remove_procedure_from_batch_service, hfilter]
    have hcount : catalog.length
        = 1 + (catalog.filter (fun e => e.nomeProcedure != procedure)).length := by
      have h := List.length_eq_length_filter_add
        (l := catalog) (fun e => e.nomeProcedure == procedure)
      rw [hfilter] at h
      simpa [bne] using h
    have hlenpart : (catalog.filter (fun e => e.nomeProcedure != procedure)).length
        = catalog.length - 1 := by omega
    refine ⟨by rw [hR], by rw [hR]; simpa using hlenpart, ?_, ?_, ?_⟩
    · intro x hx hn
      have hxrem : x ∈ catalog.filter (fun e => e.nomeProcedure != procedure) :=
        List.mem_filter.mpr ⟨hx, by simpa [bne_iff_ne] using hn⟩
      constructor
      · intro hlt
        rw [hR]
        refine List.mem_map.mpr ⟨x, hxrem, ?_⟩
        rw [if_neg (by omega)]
      · intro hge
        rw [hR]
        exact List.mem_map.mpr ⟨x, hxrem, by rw [if_pos hge]⟩
    · intro x hx
      rw [hR] at hx
      obtain ⟨y, hy, hyx⟩ := List.mem_map.mp hx
      have hyname : y.nomeProcedure ≠ procedure := by
        have := (List.mem_filter.mp hy).2
        simpa [bne_iff_ne] using this
      split_ifs at hyx <;> rw [← hyx] <;> exact hyname
    · intro o
      have hmem_iff : (∃ x ∈ (remove_procedure_from_batch_service catalog procedure).2,
          x.ordem = o) ↔
          ∃ y ∈ catalog, y.ordem ≠ e0.ordem ∧
            (if e0.ordem ≤ y.ordem then y.ordem - 1 else y.ordem) = o := by
        rw [hR]
        simp only [List.mem_map, List.mem_filter, bne_iff_ne]
        constructor
        · rintro ⟨x, ⟨y, ⟨hy, hyname⟩, hyx⟩, hxo⟩
          refine ⟨y, hy, (hordname y hy).mp hyname, ?_⟩
          rw [← hxo, ← hyx]
          split_ifs <;> rfl
        · rintro ⟨y, hy, hyord, hsh⟩
          refine ⟨if e0.ordem ≤ y.ordem then { y with ordem := y.ordem - 1 } else y,
            ⟨y, ⟨hy, (hordname y hy).mpr hyord⟩, rfl⟩, ?_⟩
          rw [← hsh]
          split_ifs <;> rfl
      rw [hmem_iff]
      constructor
      · rintro ⟨y, hy, hyord, hsh⟩
        have hyrange := (hdense y.ordem).mp ⟨y, hy, rfl⟩
        split_ifs at hsh <;> omega
      · rintro ⟨h1, h2⟩
        by_cases hlt : o < e0.ordem
        · obtain ⟨y, hy, hyo⟩ := (hdense o).mpr ⟨h1, by omega⟩
          exact ⟨y, hy, by omega, by rw [if_neg (by omega), hyo]⟩
        · obtain ⟨y, hy, hyo⟩ := (hdense (o + 1)).mpr ⟨by omega, by omega⟩
          exact ⟨y, hy, by omega, by rw [if_pos (by omega)]; omega⟩

open ExecuteProcedure in
/-- Concrete instantiation of `catalog_removal_compaction` on the catalog
`[(A,1), (B,2), (C,3)]`: removing `B` (order 2) returns 1 and yields
`[(A,1), (C,2)]`, dense again; removing an absent name returns 0 and leaves
the catalog unchanged. -/
theorem catalog_removal_compaction_witness :
    remove_procedure_from_batch_service
      [⟨"A", 1⟩, ⟨"B", 2⟩, ⟨"C", 3⟩] "Z" = (0, [⟨"A", 1⟩, ⟨"B", 2⟩, ⟨"C", 3⟩]) ∧
    (remove_procedure_from_batch_service [⟨"A", 1⟩, ⟨"B", 2⟩, ⟨"C", 3⟩] "B").1 = 1 ∧
    (⟨"A", 1⟩ : CatalogEntry) ∈
      (remove_procedure_from_batch_service [⟨"A", 1⟩, ⟨"B", 2⟩, ⟨"C", 3⟩] "B").2 ∧
    (⟨"C", 2⟩ : CatalogEntry) ∈
      (remove_procedure_from_batch_service [⟨"A", 1⟩, ⟨"B", 2⟩, ⟨"C", 3⟩] "B").2 ∧
    (∀ o, (∃ x ∈ (remove_procedure_from_batch_service
        [⟨"A", 1⟩, ⟨"B", 2⟩, ⟨"C", 3⟩] "B").2, x.ordem = o) ↔ 1 ≤ o ∧ o < 3) := by
  have h := catalog_removal_compaction
  have hdense3 : ∀ o : Nat,
      (∃ x ∈ [(⟨"A", 1⟩ : CatalogEntry), ⟨"B", 2⟩, ⟨"C", 3⟩], x.ordem = o) ↔
        1 ≤ o ∧ o < 1 + 3 := by
    intro o
    constructor
    · rintro ⟨x, hx, rfl⟩
      simp only [List.mem_cons, List.not_mem_nil, or_false] at hx
      rcases hx with rfl | rfl | rfl <;> simp
    · rintro ⟨h1, h2⟩
      match o, h1, h2 with
      | 1, _, _ => exact ⟨⟨"A", 1⟩, by simp, rfl⟩
      | 2, _, _ => exact ⟨⟨"B", 2⟩, by simp, rfl⟩
      | 3, _, _ => exact ⟨⟨"C", 3⟩, by simp, rfl⟩
  refine ⟨h.1 _ "Z" (by decide), ?_, ?_, ?_, ?_⟩
  · exact (h.2 [⟨"A", 1⟩, ⟨"B", 2⟩, ⟨"C", 3⟩] "B" ⟨"B", 2⟩ 1 3 (by decide) (by decide)
      hdense3).1
  · exact ((h.2 [⟨"A", 1⟩, ⟨"B", 2⟩, ⟨"C", 3⟩] "B" ⟨"B", 2⟩ 1 3 (by decide) (by decide)
      hdense3).2.2.1 ⟨"A", 1⟩ (by decide) (by decide)).1 (by decide)
  · exact ((h.2 [⟨"A", 1⟩, ⟨"B", 2⟩, ⟨"C", 3⟩] "B" ⟨"B", 2⟩ 1 3 (by decide) (by decide)
      hdense3).2.2.1 ⟨"C", 3⟩ (by decide) (by decide)).2 (by decide)
  · have h4 := (h.2 [⟨"A", 1⟩, ⟨"B", 2⟩, ⟨"C", 3⟩] "B" ⟨"B", 2⟩ 1 3 (by decide) (by decide)
      hdense3).2.2.2.2
    simpa using h4

/-- **C7, counterexample.** The claim fails on the clearing variant: its
parameter-failure exit code (`CustomArgumentParser.error` exits with
`PARAMETER_ERROR_CODE` on an empty or malformed flag) is 100, which is not in
the claimed 200–299 parameter/connectivity band. -/
theorem exit_code_bands_counterexample :
    (OutcomeCategory.paramOrConnectivity, ExecuteClearingProcedure.PARAMETER_ERROR_CODE)
      ∈ clearingExitCodes ∧
    ExecuteClearingProcedure.PARAMETER_ERROR_CODE = 100 ∧
    ¬ inSpecBand (OutcomeCategory.paramOrConnectivity,
        ExecuteClearingProcedure.PARAMETER_ERROR_CODE) := by
  decide

/-- **C7, amended.** The documented bands (0 success, 100–199 precondition,
200–299 parameter/connectivity) hold for every terminal outcome of the
full-preflight and calendar variants, and for every outcome of the clearing
variant except its parameter failure, which exits with 100. -/
theorem exit_code_bands_amended :
    (∀ x ∈ executeProcedureExitCodes, inSpecBand x) ∧
    (∀ x ∈ validateBatchExitCodes, inSpecBand x) ∧
    (∀ x ∈ clearingExitCodes,
      x ≠ (OutcomeCategory.paramOrConnectivity,
            ExecuteClearingProcedure.PARAMETER_ERROR_CODE) →
      inSpecBand x) ∧
    ExecuteClearingProcedure.PARAMETER_ERROR_CODE = 100 := by
  decide

/-- Concrete instantiations of `exit_code_bands_amended`: the already-executed
code of the full variant and the database-error code of the clearing variant
lie in their bands. -/
theorem exit_code_bands_amended_witness :
    inSpecBand (OutcomeCategory.precondition,
      ExecuteProcedure.PROC_JA_EXECUTADA_DATAMOVIMENTO_CODE) ∧
    inSpecBand (OutcomeCategory.paramOrConnectivity,
      ExecuteClearingProcedure.DATABASE_ERROR_CODE) :=
  ⟨exit_code_bands_amended.1 _ (by decide),
   exit_code_bands_amended.2.2.1 _ (by decide) (by decide)⟩

/-- **C8, counterexample.** The claim fails for the password flags: with an
empty `--issuer-password` (and every other flag well-formed) the full-variant
validation returns success, and the run proceeds to open the database
connections instead of failing with the parameter-error code. -/
theorem empty_required_flag_counterexample :
    ExecuteProcedure.validate_params
      { issuer_server := "srv", issuer_database := "db", issuer_user := "usr",
        issuer_password := "", logbatch_server := "lsrv", logbatch_database := "ldb",
        logbatch_user := "lusr", logbatch_password := "lpw", issuer_procedure := "P",
        run_date := none, remove_from_batch := false, force_execution := false }
      (fun _ => true) = ExecuteProcedure.SUCCESS_CODE ∧
    (ExecuteProcedure.main
      { issuer_server := "srv", issuer_database := "db", issuer_user := "usr",
        issuer_password := "", logbatch_server := "lsrv", logbatch_database := "ldb",
        logbatch_user := "lusr", logbatch_password := "lpw", issuer_procedure := "P",
        run_date := none, remove_from_batch := false, force_execution := false }
      (fun _ => true) "2024-03-01"
      { issuer := { procedures := [], catalog := [], data := 0 }, audit := [],
        nextId := 1, startTime := 0, finishTime := 1,
        execOutcome := Except.ok 0 }).connectionOpened = true := by
  constructor
  · rfl
  · rfl

/-- **C8, amended.** For every required flag that the source does validate
(issuer server/database/user, audit-store server/database/user, routine name —
the two password flags are not checked), an empty or whitespace-only value
makes the run exit with the parameter-error code before any connection is
opened, and an invalid reference-date format exits with the invalid-date code
before any connection is opened; likewise for the calendar variant's three
validated flags (its password flag is also unchecked). -/
theorem empty_required_flag_amended :
    (∀ (p : ExecuteProcedure.ExecParams) (ok : String → Bool) (y : String)
        (env : ExecuteProcedure.Env),
      (py_strip p.issuer_server = "" ∨ py_strip p.issuer_database = "" ∨
       py_strip p.issuer_user = "" ∨ py_strip p.logbatch_server = "" ∨
       py_strip p.logbatch_database = "" ∨ py_strip p.logbatch_user = "" ∨
       py_strip p.issuer_procedure = "") →
      ExecuteProcedure.main p ok y env
        = ⟨ExecuteProcedure.PARAM_REQUIRED_EMPTY_CODE, false⟩) ∧
    (∀ (p : ExecuteProcedure.ExecParams) (ok : String → Bool) (y : String)
        (env : ExecuteProcedure.Env) (rd : String),
      py_strip p.issuer_server ≠ "" → py_strip p.issuer_database ≠ "" →
      py_strip p.issuer_user ≠ "" → py_strip p.logbatch_server ≠ "" →
      py_strip p.logbatch_database ≠ "" → py_strip p.logbatch_user ≠ "" →
      py_strip p.issuer_procedure ≠ "" →
      p.run_date = some rd → rd ≠ "" → ok rd = false →
      ExecuteProcedure.main p ok y env
        = ⟨ExecuteProcedure.PARAM_RUN_DATE_INVALID_CODE, false⟩) ∧
    (∀ (p : ValidateBatchExecution.VBParams) (ok : String → Bool)
        (row : Option ControleProcessos) (subTable : List SubProcRow),
      (py_strip p.issuer_server = "" ∨ py_strip p.issuer_database = "" ∨
       py_strip p.issuer_user = "") →
      ValidateBatchExecution.main p ok row subTable
        = ⟨ValidateBatchExecution.PARAM_REQUIRED_EMPTY_CODE, false⟩) ∧
    (∀ (p : ValidateBatchExecution.VBParams) (ok : String → Bool)
        (row : Option ControleProcessos) (subTable : List SubProcRow) (rd : String),
      py_strip p.issuer_server ≠ "" → py_strip p.issuer_database ≠ "" →
      py_strip p.issuer_user ≠ "" →
      p.run_date = some rd → rd ≠ "" → ok rd = false →
      ValidateBatchExecution.main p ok row subTable
        = ⟨ValidateBatchExecution.PARAM_RUN_DATE_INVALID_CODE, false⟩) := by
  refine ⟨?_, ?_, ?_, ?_⟩
  · intro p ok y env hblank
    have hv : ExecuteProcedure.validate_params p ok
        = ExecuteProcedure.PARAM_REQUIRED_EMPTY_CODE := by
      unfold ExecuteProcedure.validate_params
      split_ifs <;> try rfl
      rcases hblank with h | h | h | h | h | h | h <;> simp_all
    simp [ExecuteProcedure.main, hv, ExecuteProcedure.PARAM_REQUIRED_EMPTY_CODE]
  · intro p ok y env rd h1 h2 h3 h4 h5 h6 h7 hrd hne hok
    have hv : ExecuteProcedure.validate_params p ok
        = ExecuteProcedure.PARAM_RUN_DATE_INVALID_CODE := by
      unfold ExecuteProcedure.validate_params
      simp [h1, h2, h3, h4, h5, h6, h7, hrd, hne, hok]
    simp [ExecuteProcedure.main, hv, ExecuteProcedure.PARAM_RUN_DATE_INVALID_CODE]
  · intro p ok row subTable hblank
    have hv : ValidateBatchExecution.validate_params p ok
        = ValidateBatchExecution.PARAM_REQUIRED_EMPTY_CODE := by
      unfold ValidateBatchExecution.validate_params
      split_ifs <;> try rfl
      rcases hblank with h | h | h <;> simp_all
    simp [ValidateBatchExecution.main, hv,
      ValidateBatchExecution.PARAM_REQUIRED_EMPTY_CODE]
  · intro p ok row subTable rd h1 h2 h3 hrd hne hok
    have hv : ValidateBatchExecution.validate_params p ok
        = ValidateBatchExecution.PARAM_RUN_DATE_INVALID_CODE := by
      unfold ValidateBatchExecution.validate_params
      simp [h1, h2, h3, hrd, hne, hok]
    simp [ValidateBatchExecution.main, hv,
      ValidateBatchExecution.PARAM_RUN_DATE_INVALID_CODE]

/-- Concrete instantiations of `empty_required_flag_amended`: a
whitespace-only `--issuer-user` makes the calendar variant exit 202 without a
connection, and an invalid date makes the full variant exit 201 without a
connection. -/
theorem empty_required_flag_amended_witness :
    ValidateBatchExecution.main
      { issuer_server := "srv", issuer_database := "db", issuer_user := "  ",
        issuer_password := "pw", run_date := none, wait_batch_complemento := false }
      (fun _ => true) none []
      = ⟨ValidateBatchExecution.PARAM_REQUIRED_EMPTY_CODE, false⟩ ∧
    ExecuteProcedure.main
      { issuer_server := "srv", issuer_database := "db", issuer_user := "usr",
        issuer_password := "pw", logbatch_server := "lsrv", logbatch_database := "ldb",
        logbatch_user := "lusr", logbatch_password := "lpw", issuer_procedure := "P",
        run_date := some "01/03/2024", remove_from_batch := false,
        force_execution := false }
      (fun _ => false) "2024-03-01"
      { issuer := { procedures := [], catalog := [], data := 0 }, audit := [],
        nextId := 1, startTime := 0, finishTime := 1,
        execOutcome := Except.ok 0 }
      = ⟨ExecuteProcedure.PARAM_RUN_DATE_INVALID_CODE, false⟩ :=
  ⟨empty_required_flag_amended.2.2.1 _ _ _ _ (Or.inr (Or.inr (by decide))),
   empty_required_flag_amended.2.1 _ _ _ _ "01/03/2024" (by decide) (by decide)
     (by decide) (by decide) (by decide) (by decide) (by decide) rfl (by decide) rfl⟩

/-- If the trace's stage numbers are nondecreasing and every `p`-event has a
strictly smaller stage than every `q`-event, then every `p`-event occurs
before every `q`-event. -/
lemma eventsOrdered_of_stage_sorted (t : List Event) (f : Event → Nat)
    (p q : Event → Bool) (hs : (t.map f).Sorted (· ≤ ·))
    (hpq : ∀ x y, p x = true → q y = true → f x < f y) :
    eventsOrdered t p q := by
  intro i hi j hj hp hq
  by_contra hij
  push_neg at hij
  have hflt : f (t.get ⟨i, hi⟩) < f (t.get ⟨j, hj⟩) := hpq _ _ hp hq
  rcases Nat.eq_or_lt_of_le hij with heq | hlt
  · subst heq
    exact lt_irrefl _ hflt
  · have hs2 := List.Sorted.rel_get_of_lt hs
      (a := ⟨j, by simpa using hj⟩) (b := ⟨i, by simpa using hi⟩) (by simpa using hlt)
    simp only [List.get_eq_getElem, List.getElem_map] at hs2
    simp only [List.get_eq_getElem] at hflt
    omega

/-- Every trace of the full-preflight `run_process` has nondecreasing
`epStage` numbers: preflight events, then registration, invocation,
finalization. -/
lemma ep_trace_stage_sorted (p : ExecuteProcedure.ExecParams) (rd : String)
    (env : ExecuteProcedure.Env) :
    (((ExecuteProcedure.run_process p rd env).trace).map epStage).Sorted (· ≤ ·) := by
  rcases env with ⟨issuer, audit, nid, st, ft, outcome⟩
  rcases outcome with e | d <;>
    (simp only [ExecuteProcedure.run_process, ExecuteProcedure.run_from_already_check,
       ExecuteProcedure.execute_procedure]
     split_ifs <;> simp [epStage])

/-- Every trace of the clearing `run_process` has nondecreasing `clStage`
numbers: registration, then the existence check, invocation, finalization. -/
lemma cl_trace_stage_sorted (p : ExecuteClearingProcedure.ClearingParams)
    (env : ExecuteClearingProcedure.ClearingEnv) :
    (((ExecuteClearingProcedure.run_process p env).trace).map clStage).Sorted (· ≤ ·) := by
  rcases env with ⟨procs, audit, nid, today, st, ft, commErr, outcome⟩
  rcases commErr with _ | ce
  · rcases outcome with _ | e <;>
      (simp only [ExecuteClearingProcedure.run_process,
         ExecuteClearingProcedure.check_procedure_exists]
       split_ifs <;> simp [clStage])
  · simp only [ExecuteClearingProcedure.run_process,
      ExecuteClearingProcedure.check_procedure_exists]
    simp [clStage]

/-- **C9, counterexample.** In the clearing variant the stages do not follow
the claimed order: a concrete run produces the trace `register, existence
check, invoke, finalize` — the preflight existence check happens strictly
after the audit registration, so preflight does not precede registration. -/
theorem stage_ordering_counterexample :
    (ExecuteClearingProcedure.run_process
      { issuer_server := "srv", issuer_database := "db", issuer_user := "u",
        issuer_password := "pw", logbatch_server := "ls", logbatch_database := "ld",
        logbatch_user := "lu", logbatch_password := "lp", issuer_procedure := "P" }
      { issuerProcs := ["P"], audit := [], nextId := 7, today := "2024-03-01",
        startTime := 0, finishTime := 1, checkCommError := none,
        execOutcome := none }).trace
      = [Event.register 7, Event.checkExists, Event.invoke, Event.finalizeSuccess 7] ∧
    ¬ eventsOrdered
      (ExecuteClearingProcedure.run_process
        { issuer_server := "srv", issuer_database := "db", issuer_user := "u",
          issuer_password := "pw", logbatch_server := "ls", logbatch_database := "ld",
          logbatch_user := "lu", logbatch_password := "lp", issuer_procedure := "P" }
        { issuerProcs := ["P"], audit := [], nextId := 7, today := "2024-03-01",
          startTime := 0, finishTime := 1, checkCommError := none,
          execOutcome := none }).trace
      isPreflightEvent isRegisterEvent := by
  constructor
  · decide
  · intro h
    have := h 1 (by decide) 0 (by decide) (by decide) (by decide)
    omega

/-- **C9, amended.** In the full-preflight variant every preflight event
(existence, catalog, removal, idempotency check) occurs strictly before the
registration, registration strictly before the invocation, and invocation
strictly before the finalization; in the clearing variant registration occurs
first, strictly before the existence check, which occurs strictly before the
invocation, which occurs strictly before the finalization. -/
theorem stage_ordering_amended :
    (∀ (p : ExecuteProcedure.ExecParams) (rd : String)
        (env : ExecuteProcedure.Env),
      eventsOrdered (ExecuteProcedure.run_process p rd env).trace
        isPreflightEvent isRegisterEvent ∧
      eventsOrdered (ExecuteProcedure.run_process p rd env).trace
        isRegisterEvent isInvokeEvent ∧
      eventsOrdered (ExecuteProcedure.run_process p rd env).trace
        isInvokeEvent isFinalizeEvent) ∧
    (∀ (p : ExecuteClearingProcedure.ClearingParams)
        (env : ExecuteClearingProcedure.ClearingEnv),
      eventsOrdered (ExecuteClearingProcedure.run_process p env).trace
        isRegisterEvent isCheckExistsEvent ∧
      eventsOrdered (ExecuteClearingProcedure.run_process p env).trace
        isCheckExistsEvent isInvokeEvent ∧
      eventsOrdered (ExecuteClearingProcedure.run_process p env).trace
        isInvokeEvent isFinalizeEvent) := by
  constructor
  · intro p rd env
    refine ⟨?_, ?_, ?_⟩ <;>
      refine eventsOrdered_of_stage_sorted _ epStage _ _
        (ep_trace_stage_sorted p rd env) ?_ <;>
      (intro x y hx hy
       cases x <;> cases y <;>
         simp_all [epStage, isPreflightEvent, isRegisterEvent, isInvokeEvent,
           isFinalizeEvent])
  · intro p env
    refine ⟨?_, ?_, ?_⟩ <;>
      refine eventsOrdered_of_stage_sorted _ clStage _ _
        (cl_trace_stage_sorted p env) ?_ <;>
      (intro x y hx hy
       cases x <;> cases y <;>
         simp_all [clStage, isCheckExistsEvent, isRegisterEvent, isInvokeEvent,
           isFinalizeEvent])

/-- Concrete instantiation of `stage_ordering_amended` on a successful full
run whose trace is `checkExists, checkCatalog, checkAlreadyExecuted,
register 5, invoke, finalizeSuccess 5`: the theorem places index 0 (a
preflight event) before index 3 (registration), index 3 before index 4
(invocation) and index 4 before index 5 (finalization). -/
theorem stage_ordering_amended_witness :
    (0 : Nat) < 3 ∧ (3 : Nat) < 4 ∧ (4 : Nat) < 5 := by
  have h := stage_ordering_amended.1
    { issuer_server := "srv", issuer_database := "db", issuer_user := "u",
      issuer_password := "pw", logbatch_server := "ls", logbatch_database := "ld",
      logbatch_user := "lu", logbatch_password := "lp", issuer_procedure := "P",
      run_date := some "2024-03-01", remove_from_batch := false,
      force_execution := false }
    "2024-03-01"
    { issuer := { procedures := ["P"], catalog := [], data := 0 }, audit := [],
      nextId := 5, startTime := 0, finishTime := 1, execOutcome := Except.ok 9 }
  exact ⟨h.1 0 (by decide) 3 (by decide) (by decide) (by decide),
         h.2.1 3 (by decide) 4 (by decide) (by decide) (by decide),
         h.2.2 4 (by decide) 5 (by decide) (by decide) (by decide)⟩

open ExecuteProcedure in
/-- When the already-executed check fires, the tail of the full run blocks
with code 101 and touches neither store. -/
lemma tail_blocked (p : ExecParams) (rd : String) (issuer : IssuerEnv)
    (env : Env) (t : List Event)
    (halready : check_procedure_already_executed env.audit p.issuer_procedure
      p.issuer_server p.issuer_database rd p.force_execution = true) :
    run_from_already_check p rd issuer env t =
      { code := PROC_JA_EXECUTADA_DATAMOVIMENTO_CODE, issuer := issuer,
        audit := env.audit, trace := t ++ [Event.checkAlreadyExecuted] } := by
  simp [run_from_already_check, halready]

open ExecuteProcedure in
/-- When the already-executed check passes and the EXEC succeeds, the tail of
the full run registers, invokes, finalizes to success and exits 0. -/
lemma tail_success (p : ExecParams) (rd : String) (issuer : IssuerEnv)
    (env : Env) (t : List Event)
    (halready : check_procedure_already_executed env.audit p.issuer_procedure
      p.issuer_server p.issuer_database rd p.force_execution = false)
    (d : Nat) (hout : env.execOutcome = Except.ok d) :
    run_from_already_check p rd issuer env t =
      { code := ExecuteProcedure.SUCCESS_CODE, issuer := { issuer with data := d },
        audit := (update_proc_execution_success
          (env.audit ++ [registered_record p.issuer_server p.issuer_database
            p.issuer_procedure rd env.startTime env.nextId])
          env.nextId env.finishTime).1,
        trace := t ++ [Event.checkAlreadyExecuted, Event.register env.nextId,
          Event.invoke, Event.finalizeSuccess env.nextId] } := by
  simp [run_from_already_check, halready, register_new_proc_execution,
    ExecuteProcedure.execute_procedure, hout]

open ExecuteProcedure in
/-- When the already-executed check passes and the EXEC raises, the tail of
the full run registers, invokes, rolls the issuer data back, finalizes to
Failed and exits 203. -/
lemma tail_error (p : ExecParams) (rd : String) (issuer : IssuerEnv)
    (env : Env) (t : List Event)
    (halready : check_procedure_already_executed env.audit p.issuer_procedure
      p.issuer_server p.issuer_database rd p.force_execution = false)
    (e : String) (hout : env.execOutcome = Except.error e) :
    run_from_already_check p rd issuer env t =
      { code := ExecuteProcedure.DATABASE_ERROR_CODE, issuer := issuer,
        audit := (update_proc_execution_error
          (env.audit ++ [registered_record p.issuer_server p.issuer_database
            p.issuer_procedure rd env.startTime env.nextId])
          env.nextId e env.finishTime).1,
        trace := t ++ [Event.checkAlreadyExecuted, Event.register env.nextId,
          Event.invoke, Event.finalizeError env.nextId] } := by
  simp [run_from_already_check, halready, register_new_proc_execution,
    ExecuteProcedure.execute_procedure, hout]

open ExecuteProcedure in
/-- When the routine exists and the catalog does not list it, the full run
reduces to its tail after the existence and catalog checks. -/
lemma run_process_no_catalog (p : ExecParams) (rd : String) (env : Env)
    (hex : check_procedure_exists env.issuer.procedures p.issuer_procedure = true)
    (hcat : check_procedure_in_batch_service env.issuer.catalog
      p.issuer_procedure = false) :
    ExecuteProcedure.run_process p rd env =
      run_from_already_check p rd env.issuer env
        [Event.checkExists, Event.checkCatalog] := by
  simp [ExecuteProcedure.run_process, hex, hcat]

open ExecuteProcedure in
/-- When the routine exists, the catalog lists it and removal was requested,
the full run removes the entry and reduces to its tail. -/
lemma run_process_catalog_removal (p : ExecParams) (rd : String) (env : Env)
    (hex : check_procedure_exists env.issuer.procedures p.issuer_procedure = true)
    (hcat : check_procedure_in_batch_service env.issuer.catalog
      p.issuer_procedure = true)
    (hrm : p.remove_from_batch = true) :
    ExecuteProcedure.run_process p rd env =
      run_from_already_check p rd
        { env.issuer with
            catalog := (remove_procedure_from_batch_service env.issuer.catalog
              p.issuer_procedure).2 }
        env [Event.checkExists, Event.checkCatalog, Event.removeCatalog] := by
  simp [ExecuteProcedure.run_process, hex, hcat, hrm]

open ExecuteProcedure in
/-- Finalizing to success on a store whose only row with the target identity
is the freshly appended one updates exactly that row. -/
lemma update_success_fresh (store : List ExecutionRecord) (rid : Nat)
    (now : Nat) (rec : ExecutionRecord)
    (hfresh : ∀ r ∈ store, r.rid ≠ rid) (hrec : rec.rid = rid) :
    (update_proc_execution_success (store ++ [rec]) rid now).1
      = store ++ [{ rec with dataHoraFinal := some now, statusExecucao := 2 }] := by
  simp only [update_proc_execution_success, List.map_append, List.map_cons,
    List.map_nil]
  rw [if_pos (by simp [hrec])]
  congr 1
  have hmap : store.map (fun r =>
      if r.rid == rid then
        { r with dataHoraFinal := some now, statusExecucao := 2 }
      else r) = store.map id :=
    List.map_congr_left (fun r hr => by simp [hfresh r hr])
  rw [hmap, List.map_id]

open ExecuteProcedure in
/-- Finalizing to Failed on a store whose only row with the target identity
is the freshly appended one updates exactly that row. -/
lemma update_error_fresh (store : List ExecutionRecord) (rid : Nat)
    (e : String) (now : Nat) (rec : ExecutionRecord)
    (hfresh : ∀ r ∈ store, r.rid ≠ rid) (hrec : rec.rid = rid) :
    (update_proc_execution_error (store ++ [rec]) rid e now).1
      = store ++
        [{ rec with
            dataHoraFinal := some now,
            mensagemErro := some (escape_quotes e),
            statusExecucao := 3 }] := by
  simp only [update_proc_execution_error, List.map_append, List.map_cons,
    List.map_nil]
  rw [if_pos (by simp [hrec])]
  congr 1
  have hmap : store.map (fun r =>
      if r.rid == rid then
        { r with dataHoraFinal := some now,
                 mensagemErro := some (escape_quotes e), statusExecucao := 3 }
      else r) = store.map id :=
    List.map_congr_left (fun r hr => by simp [hfresh r hr])
  rw [hmap, List.map_id]

/-- **C2, counterexample.** A non-forced run whose audit store already holds a
Succeeded record for the tuple does not exit 101 when the routine is missing
from the issuer store: the existence check fires first and the run exits 204. -/
theorem idempotent_block_counterexample :
    (∃ r ∈ ([{ rid := 1, dataMovimento := "2024-03-01", emissor := "db",
               ipServidor := "srv", nomeProcedure := "P", dataHoraInicial := 0,
               dataHoraFinal := some 1, mensagemErro := none,
               statusExecucao := 2 }] : List ExecutionRecord),
      ExecuteProcedure.tupleMatches r "P" "srv" "db" "2024-03-01" = true ∧
      r.statusExecucao = 2) ∧
    (ExecuteProcedure.run_process
      { issuer_server := "srv", issuer_database := "db", issuer_user := "u",
        issuer_password := "pw", logbatch_server := "ls", logbatch_database := "ld",
        logbatch_user := "lu", logbatch_password := "lp", issuer_procedure := "P",
        run_date := some "2024-03-01", remove_from_batch := false,
        force_execution := false }
      "2024-03-01"
      { issuer := { procedures := [], catalog := [], data := 0 },
        audit := [{ rid := 1, dataMovimento := "2024-03-01", emissor := "db",
                    ipServidor := "srv", nomeProcedure := "P",
                    dataHoraInicial := 0, dataHoraFinal := some 1,
                    mensagemErro := none, statusExecucao := 2 }],
        nextId := 2, startTime := 0, finishTime := 1,
        execOutcome := Except.ok 0 }).code
      = ExecuteProcedure.PROCEDURE_NOT_EXISTS_CODE ∧
    ExecuteProcedure.PROCEDURE_NOT_EXISTS_CODE
      ≠ ExecuteProcedure.PROC_JA_EXECUTADA_DATAMOVIMENTO_CODE := by
  decide

/-- **C2, amended.** For every non-forced run of the full-preflight variant
whose audit store holds a Succeeded record for the tuple, provided the routine
exists in the issuer store and is not listed in the batch-service catalog, the
run exits 101, never invokes the routine, registers nothing, and leaves the
audit store and the issuer store unchanged. -/
theorem idempotent_block_amended (p : ExecuteProcedure.ExecParams)
    (rd : String) (env : ExecuteProcedure.Env)
    (hex : ExecuteProcedure.check_procedure_exists env.issuer.procedures
      p.issuer_procedure = true)
    (hcat : ExecuteProcedure.check_procedure_in_batch_service env.issuer.catalog
      p.issuer_procedure = false)
    (hforce : p.force_execution = false)
    (hsucc : ∃ r ∈ env.audit,
      ExecuteProcedure.tupleMatches r p.issuer_procedure p.issuer_server
        p.issuer_database rd = true ∧ r.statusExecucao = 2) :
    (ExecuteProcedure.run_process p rd env).code
      = ExecuteProcedure.PROC_JA_EXECUTADA_DATAMOVIMENTO_CODE ∧
    (ExecuteProcedure.run_process p rd env).audit = env.audit ∧
    (ExecuteProcedure.run_process p rd env).issuer = env.issuer ∧
    Event.invoke ∉ (ExecuteProcedure.run_process p rd env).trace ∧
    ∀ n, Event.register n ∉ (ExecuteProcedure.run_process p rd env).trace := by
  have halready : ExecuteProcedure.check_procedure_already_executed env.audit
      p.issuer_procedure p.issuer_server p.issuer_database rd
      p.force_execution = true := by
    rw [check_exists_iff]
    obtain ⟨r, hr, hm, hs⟩ := hsucc
    exact ⟨r, hr, hm, by simp [ExecuteProcedure.statusFilter, hforce, hs]⟩
  rw [run_process_no_catalog p rd env hex hcat,
    tail_blocked p rd env.issuer env _ halready]
  refine ⟨rfl, rfl, rfl, by simp, by intro n; simp⟩

/-- Concrete instantiation of `idempotent_block_amended`: with routine `P`
present, an empty catalog and a Succeeded record for the tuple, the non-forced
run exits 101 with the audit store untouched and no invocation. -/
theorem idempotent_block_amended_witness :
    (ExecuteProcedure.run_process
      { issuer_server := "srv", issuer_database := "db", issuer_user := "u",
        issuer_password := "pw", logbatch_server := "ls", logbatch_database := "ld",
        logbatch_user := "lu", logbatch_password := "lp", issuer_procedure := "P",
        run_date := some "2024-03-01", remove_from_batch := false,
        force_execution := false }
      "2024-03-01"
      { issuer := { procedures := ["P"], catalog := [], data := 0 },
        audit := [{ rid := 1, dataMovimento := "2024-03-01", emissor := "db",
                    ipServidor := "srv", nomeProcedure := "P",
                    dataHoraInicial := 0, dataHoraFinal := some 1,
                    mensagemErro := none, statusExecucao := 2 }],
        nextId := 2, startTime := 0, finishTime := 1,
        execOutcome := Except.ok 0 }).code
      = ExecuteProcedure.PROC_JA_EXECUTADA_DATAMOVIMENTO_CODE ∧
    Event.invoke ∉ (ExecuteProcedure.run_process
      { issuer_server := "srv", issuer_database := "db", issuer_user := "u",
        issuer_password := "pw", logbatch_server := "ls", logbatch_database := "ld",
        logbatch_user := "lu", logbatch_password := "lp", issuer_procedure := "P",
        run_date := some "2024-03-01", remove_from_batch := false,
        force_execution := false }
      "2024-03-01"
      { issuer := { procedures := ["P"], catalog := [], data := 0 },
        audit := [{ rid := 1, dataMovimento := "2024-03-01", emissor := "db",
                    ipServidor := "srv", nomeProcedure := "P",
                    dataHoraInicial := 0, dataHoraFinal := some 1,
                    mensagemErro := none, statusExecucao := 2 }],
        nextId := 2, startTime := 0, finishTime := 1,
        execOutcome := Except.ok 0 }).trace := by
  have h := idempotent_block_amended
    { issuer_server := "srv", issuer_database := "db", issuer_user := "u",
      issuer_password := "pw", logbatch_server := "ls", logbatch_database := "ld",
      logbatch_user := "lu", logbatch_password := "lp", issuer_procedure := "P",
      run_date := some "2024-03-01", remove_from_batch := false,
      force_execution := false }
    "2024-03-01"
    { issuer := { procedures := ["P"], catalog := [], data := 0 },
      audit := [{ rid := 1, dataMovimento := "2024-03-01", emissor := "db",
                  ipServidor := "srv", nomeProcedure := "P",
                  dataHoraInicial := 0, dataHoraFinal := some 1,
                  mensagemErro := none, statusExecucao := 2 }],
      nextId := 2, startTime := 0, finishTime := 1,
      execOutcome := Except.ok 0 }
    (by decide) (by decide) rfl
    ⟨_, List.mem_singleton_self _, by decide, by decide⟩
  exact ⟨h.1, h.2.2.2.1⟩

/-- `str.replace` on characters yields the empty list only from the empty
list. -/
lemma escape_quotes_chars_eq_nil {l : List Char} :
    escape_quotes_chars l = [] ↔ l = [] := by
  cases l with
  | nil => simp [escape_quotes_chars]
  | cons c cs =>
    simp only [escape_quotes_chars]
    split_ifs <;> simp

/-- Escaping preserves non-emptiness of the stored error message. -/
lemma escape_quotes_ne_empty {e : String} (h : e ≠ "") : escape_quotes e ≠ "" := by
  intro hc
  apply h
  have hdata : escape_quotes_chars e.data = [] := congrArg String.data hc
  have hd : e.data = [] := escape_quotes_chars_eq_nil.mp hdata
  exact String.ext hd

open ExecuteProcedure in
/-- Under the preflight hypotheses the full run reduces to its tail, with an
issuer state whose data field is untouched. -/
lemma run_process_reaches_tail (p : ExecParams) (rd : String) (env : Env)
    (hex : check_procedure_exists env.issuer.procedures p.issuer_procedure = true)
    (hcat : check_procedure_in_batch_service env.issuer.catalog
        p.issuer_procedure = false ∨ p.remove_from_batch = true) :
    ∃ t0 issuer2, ExecuteProcedure.run_process p rd env
        = run_from_already_check p rd issuer2 env t0 ∧
      issuer2.data = env.issuer.data := by
  rcases hcat with hcat | hrm
  · exact ⟨_, _, run_process_no_catalog p rd env hex hcat, rfl⟩
  · by_cases hic : check_procedure_in_batch_service env.issuer.catalog
        p.issuer_procedure = true
    · exact ⟨_, _, run_process_catalog_removal p rd env hex hic hrm, rfl⟩
    · exact ⟨_, _, run_process_no_catalog p rd env hex (by simpa using hic), rfl⟩

open ExecuteProcedure in
/-- **C6.** An invocation that reaches registration creates the audit record
with status Registered = 1 and null `finishedAt`/`errorMessage`, and finalizes
it exactly once: a successful run leaves the audit store extended by that one
record transitioned to Succeeded = 2 with `finishedAt` set and `errorMessage`
still null; a failing run leaves it extended by the record transitioned to
Failed = 3 with `finishedAt` set and the (non-empty, once the error text is
non-empty) escaped error message; no other transition is produced. -/
theorem audit_lifecycle (p : ExecParams) (rd : String) (env : Env)
    (hex : check_procedure_exists env.issuer.procedures p.issuer_procedure = true)
    (hcat : check_procedure_in_batch_service env.issuer.catalog
        p.issuer_procedure = false ∨ p.remove_from_batch = true)
    (halready : check_procedure_already_executed env.audit p.issuer_procedure
      p.issuer_server p.issuer_database rd p.force_execution = false)
    (hfresh : ∀ r ∈ env.audit, r.rid ≠ env.nextId) :
    (registered_record p.issuer_server p.issuer_database p.issuer_procedure rd
      env.startTime env.nextId).statusExecucao = 1 ∧
    (registered_record p.issuer_server p.issuer_database p.issuer_procedure rd
      env.startTime env.nextId).dataHoraFinal = none ∧
    (registered_record p.issuer_server p.issuer_database p.issuer_procedure rd
      env.startTime env.nextId).mensagemErro = none ∧
    (∀ d, env.execOutcome = Except.ok d →
      (ExecuteProcedure.run_process p rd env).audit = env.audit ++
        [{ registered_record p.issuer_server p.issuer_database p.issuer_procedure
             rd env.startTime env.nextId with
           dataHoraFinal := some env.finishTime, statusExecucao := 2 }]) ∧
    (∀ e, env.execOutcome = Except.error e →
      (ExecuteProcedure.run_process p rd env).audit = env.audit ++
        [{ registered_record p.issuer_server p.issuer_database p.issuer_procedure
             rd env.startTime env.nextId with
           dataHoraFinal := some env.finishTime,
           mensagemErro := some (escape_quotes e), statusExecucao := 3 }]) ∧
    (∀ e : String, e ≠ "" → escape_quotes e ≠ "") := by
  obtain ⟨t0, issuer2, hred, -⟩ := run_process_reaches_tail p rd env hex hcat
  refine ⟨rfl, rfl, rfl, ?_, ?_, fun e he => escape_quotes_ne_empty he⟩
  · intro d hout
    rw [hred, tail_success p rd issuer2 env t0 halready d hout]
    exact update_success_fresh env.audit env.nextId env.finishTime _ hfresh rfl
  · intro e hout
    rw [hred, tail_error p rd issuer2 env t0 halready e hout]
    exact update_error_fresh env.audit env.nextId e env.finishTime _ hfresh rfl

open ExecuteProcedure in
/-- Concrete instantiations of `audit_lifecycle`: a successful run finalizes
the single fresh record to Succeeded with `finishedAt` set and no error
message; a failing run finalizes it to Failed with the escaped message; a
non-empty error text stays non-empty after escaping. -/
theorem audit_lifecycle_witness :
    (ExecuteProcedure.run_process
      { issuer_server := "srv", issuer_database := "db", issuer_user := "u",
        issuer_password := "pw", logbatch_server := "ls", logbatch_database := "ld",
        logbatch_user := "lu", logbatch_password := "lp", issuer_procedure := "P",
        run_date := some "2024-03-01", remove_from_batch := false,
        force_execution := false }
      "2024-03-01"
      { issuer := { procedures := ["P"], catalog := [], data := 0 }, audit := [],
        nextId := 5, startTime := 3, finishTime := 4,
        execOutcome := Except.ok 9 }).audit
      = [{ rid := 5, dataMovimento := "2024-03-01", emissor := "db",
           ipServidor := "srv", nomeProcedure := "P", dataHoraInicial := 3,
           dataHoraFinal := some 4, mensagemErro := none, statusExecucao := 2 }] ∧
    (ExecuteProcedure.run_process
      { issuer_server := "srv", issuer_database := "db", issuer_user := "u",
        issuer_password := "pw", logbatch_server := "ls", logbatch_database := "ld",
        logbatch_user := "lu", logbatch_password := "lp", issuer_procedure := "P",
        run_date := some "2024-03-01", remove_from_batch := false,
        force_execution := false }
      "2024-03-01"
      { issuer := { procedures := ["P"], catalog := [], data := 0 }, audit := [],
        nextId := 5, startTime := 3, finishTime := 4,
        execOutcome := Except.error "boom" }).audit
      = [{ rid := 5, dataMovimento := "2024-03-01", emissor := "db",
           ipServidor := "srv", nomeProcedure := "P", dataHoraInicial := 3,
           dataHoraFinal := some 4, mensagemErro := some (escape_quotes "boom"),
           statusExecucao := 3 }] ∧
    escape_quotes "boom" ≠ "" := by
  have hs := audit_lifecycle
    { issuer_server := "srv", issuer_database := "db", issuer_user := "u",
      issuer_password := "pw", logbatch_server := "ls", logbatch_database := "ld",
      logbatch_user := "lu", logbatch_password := "lp", issuer_procedure := "P",
      run_date := some "2024-03-01", remove_from_batch := false,
      force_execution := false }
    "2024-03-01"
    { issuer := { procedures := ["P"], catalog := [], data := 0 }, audit := [],
      nextId := 5, startTime := 3, finishTime := 4, execOutcome := Except.ok 9 }
    (by decide) (Or.inl (by decide)) (by decide)
    (fun r hr => absurd hr (List.not_mem_nil r))
  have he := audit_lifecycle
    { issuer_server := "srv", issuer_database := "db", issuer_user := "u",
      issuer_password := "pw", logbatch_server := "ls", logbatch_database := "ld",
      logbatch_user := "lu", logbatch_password := "lp", issuer_procedure := "P",
      run_date := some "2024-03-01", remove_from_batch := false,
      force_execution := false }
    "2024-03-01"
    { issuer := { procedures := ["P"], catalog := [], data := 0 }, audit := [],
      nextId := 5, startTime := 3, finishTime := 4,
      execOutcome := Except.error "boom" }
    (by decide) (Or.inl (by decide)) (by decide)
    (fun r hr => absurd hr (List.not_mem_nil r))
  refine ⟨?_, ?_, he.2.2.2.2.2 "boom" (by decide)⟩
  · have h1 := hs.2.2.2.1 9 rfl
    simpa [ExecuteProcedure.registered_record] using h1
  · have h2 := he.2.2.2.2.1 "boom" rfl
    simpa [ExecuteProcedure.registered_record] using h2

open ExecuteProcedure in
/-- **C10.** When the remote invocation raises a database error, the issuer
transaction is rolled back before the error is returned — `execute_procedure`
returns the committed issuer data unchanged together with the error — and in
any full run that reaches the invocation, the issuer data is unchanged while
the failure is recorded in the separate audit store (exit 203, Failed record
with the escaped message). -/
theorem invocation_failure_rollback :
    (∀ (d : Nat) (e : String),
      ExecuteProcedure.execute_procedure d (Except.error e) = (d, some e)) ∧
    (∀ (p : ExecParams) (rd : String) (env : Env) (e : String),
      check_procedure_exists env.issuer.procedures p.issuer_procedure = true →
      (check_procedure_in_batch_service env.issuer.catalog p.issuer_procedure
          = false ∨ p.remove_from_batch = true) →
      check_procedure_already_executed env.audit p.issuer_procedure
        p.issuer_server p.issuer_database rd p.force_execution = false →
      (∀ r ∈ env.audit, r.rid ≠ env.nextId) →
      env.execOutcome = Except.error e →
      (ExecuteProcedure.run_process p rd env).issuer.data = env.issuer.data ∧
      (ExecuteProcedure.run_process p rd env).code
        = ExecuteProcedure.DATABASE_ERROR_CODE ∧
      (ExecuteProcedure.run_process p rd env).audit = env.audit ++
        [{ registered_record p.issuer_server p.issuer_database p.issuer_procedure
             rd env.startTime env.nextId with
           dataHoraFinal := some env.finishTime,
           mensagemErro := some (escape_quotes e), statusExecucao := 3 }]) := by
  constructor
  · intro d e
    rfl
  · intro p rd env e hex hcat halready hfresh hout
    obtain ⟨t0, issuer2, hred, hdata⟩ := run_process_reaches_tail p rd env hex hcat
    rw [hred, tail_error p rd issuer2 env t0 halready e hout]
    exact ⟨hdata, rfl,
      update_error_fresh env.audit env.nextId e env.finishTime _ hfresh rfl⟩

open ExecuteProcedure in
/-- Concrete instantiation of `invocation_failure_rollback`: a failing
invocation leaves the issuer data at its prior value 42 while the run exits
203 and the audit store records the Failed attempt. -/
theorem invocation_failure_rollback_witness :
    ExecuteProcedure.execute_procedure 42 (Except.error "deadlock") = (42, some "deadlock") ∧
    (ExecuteProcedure.run_process
      { issuer_server := "srv", issuer_database := "db", issuer_user := "u",
        issuer_password := "pw", logbatch_server := "ls", logbatch_database := "ld",
        logbatch_user := "lu", logbatch_password := "lp", issuer_procedure := "P",
        run_date := some "2024-03-01", remove_from_batch := false,
        force_execution := false }
      "2024-03-01"
      { issuer := { procedures := ["P"], catalog := [], data := 42 }, audit := [],
        nextId := 5, startTime := 3, finishTime := 4,
        execOutcome := Except.error "deadlock" }).issuer.data = 42 ∧
    (ExecuteProcedure.run_process
      { issuer_server := "srv", issuer_database := "db", issuer_user := "u",
        issuer_password := "pw", logbatch_server := "ls", logbatch_database := "ld",
        logbatch_user := "lu", logbatch_password := "lp", issuer_procedure := "P",
        run_date := some "2024-03-01", remove_from_batch := false,
        force_execution := false }
      "2024-03-01"
      { issuer := { procedures := ["P"], catalog := [], data := 42 }, audit := [],
        nextId := 5, startTime := 3, finishTime := 4,
        execOutcome := Except.error "deadlock" }).code
      = ExecuteProcedure.DATABASE_ERROR_CODE := by
  have h := invocation_failure_rollback.2
    { issuer_server := "srv", issuer_database := "db", issuer_user := "u",
      issuer_password := "pw", logbatch_server := "ls", logbatch_database := "ld",
      logbatch_user := "lu", logbatch_password := "lp", issuer_procedure := "P",
      run_date := some "2024-03-01", remove_from_batch := false,
      force_execution := false }
    "2024-03-01"
    { issuer := { procedures := ["P"], catalog := [], data := 42 }, audit := [],
      nextId := 5, startTime := 3, finishTime := 4,
      execOutcome := Except.error "deadlock" }
    "deadlock"
    (by decide) (Or.inl (by decide)) (by decide)
    (fun r hr => absurd hr (List.not_mem_nil r)) rfl
  exact ⟨invocation_failure_rollback.1 42 "deadlock", h.1, h.2.1⟩
